import Mathlib

/-!
Shallow embedding of `src/app/(main)/crm/hooks/useCrm.ts`, the customer-list
controller hook of the CRM screen.  React `useState` fields become a `CrmState`
record; each handler becomes a state transformer taking the (already parsed)
server response as an explicit argument, with a thrown pre-parse error
modelled as `Except.error`; `toast` calls are collected in an output list.
-/

/-- A toast notification emitted through `react-toastify`. -/
inductive Toast where
  | success (msg : String) : Toast
  | error (msg : String) : Toast
deriving DecidableEq

/-- The customer entity, opaque to this layer beyond the fields the hook reads:
`_id`, `name`, the membership flag and the membership barcode. -/
structure CrmCustomer where
  _id : String
  name : String
  isMembership : Bool
  membershipBarcode : Option String
deriving DecidableEq

/-- `PaginationInfo` from `../types`. -/
structure PaginationInfo where
  currentPage : Int
  totalPages : Int
  totalCustomers : Int
deriving DecidableEq

/-- The `useState` fields owned by `useCrm`, in source order. -/
structure CrmState where
  customers : List CrmCustomer
  pagination : PaginationInfo
  isLoading : Bool
  pageError : Option String
  searchTerm : String
  debouncedSearchTerm : String
  selectedCustomer : Option CrmCustomer
  isDetailPanelOpen : Bool
  isAddEditModalOpen : Bool
  editingCustomer : Option CrmCustomer
  panelKey : Nat
  isMembershipUpdating : Bool
deriving DecidableEq

/-- The initial state of the hook: the `useState(...)` initializers. -/
def initialState : CrmState :=
  { customers := []
    pagination := { currentPage := 1, totalPages := 1, totalCustomers := 0 }
    isLoading := true
    pageError := none
    searchTerm := ""
    debouncedSearchTerm := ""
    selectedCustomer := none
    isDetailPanelOpen := false
    isAddEditModalOpen := false
    editingCustomer := none
    panelKey := 0
    isMembershipUpdating := false }

/-- JavaScript truthiness of a string: every string except `""` is truthy. -/
def jsTruthyString (s : String) : Bool := s != ""

/-- `m || d` on an optional string, as JavaScript evaluates it:
`undefined` and `""` are falsy, so they yield the default `d`. -/
def jsOrDefault (m : Option String) (d : String) : String :=
  match m with
  | some s => if jsTruthyString s then s else d
  | none => d

/-- Parsed JSON body (plus the HTTP `ok` flag) of `GET /api/customer?...`. -/
structure ListResponse where
  ok : Bool
  success : Bool
  customers : List CrmCustomer
  pagination : PaginationInfo
  message : Option String
deriving DecidableEq

/-- Parsed JSON body (plus HTTP `ok`) of `GET /api/customer/{id}`. -/
structure DetailResponse where
  ok : Bool
  success : Bool
  customer : Option CrmCustomer
  message : Option String
deriving DecidableEq

/-- Parsed JSON body (plus HTTP `ok`) of `DELETE /api/customer/{id}`. -/
structure DeleteResponse where
  ok : Bool
  success : Bool
  message : Option String
deriving DecidableEq

/-- Parsed JSON body (plus HTTP `ok`) of
`POST /api/customer/{id}/toggle-membership`. -/
structure MembershipResponse where
  ok : Bool
  success : Bool
  customer : Option CrmCustomer
  message : Option String
deriving DecidableEq

/-- The synchronous prefix of `fetchCustomers`, run before the request
resolves: `setIsLoading(true); setPageError(null)`. -/
def fetchCustomersStart (s : CrmState) : CrmState :=
  { s with isLoading := true, pageError := none }

/-- Resolution of `fetchCustomers` once the response (or a thrown fetch/parse
error) is available: `if (!response.ok || !data.success) throw new Error(
data.message || 'Failed to fetch customers')`; on success
`setCustomers(data.customers); setPagination(data.pagination)`; the `catch`
stores the message in `pageError`; the `finally` clears `isLoading`. -/
def fetchCustomersResolve (s : CrmState) (resp : Except String ListResponse) :
    CrmState :=
  match resp with
  | Except.error msg => { s with pageError := some msg, isLoading := false }
  | Except.ok r =>
    if !r.ok || !r.success then
      { s with
          pageError := some (jsOrDefault r.message "Failed to fetch customers")
          isLoading := false }
    else
      { s with
          customers := r.customers
          pagination := r.pagination
          isLoading := false }

/-- The whole `fetchCustomers` call viewed atomically: start, then resolve. -/
def fetchCustomers (s : CrmState) (resp : Except String ListResponse) :
    CrmState :=
  fetchCustomersResolve (fetchCustomersStart s) resp

/-- The guard of the refetch `useEffect`:
`if (debouncedSearchTerm || searchTerm === '')`. -/
def shouldFetch (s : CrmState) : Bool :=
  jsTruthyString s.debouncedSearchTerm || s.searchTerm == ""

/-- When the refetch effect body runs, the `(page, search)` pair it requests
(`fetchCustomers(pagination.currentPage)` with the current debounced term),
or `none` when the guard rejects the fetch. -/
def effectFetch (s : CrmState) : Option (Int × String) :=
  if shouldFetch s then some (s.pagination.currentPage, s.debouncedSearchTerm)
  else none

/-- The dependency tuple of the refetch `useEffect`: the `fetchCustomers`
callback identity is determined by `debouncedSearchTerm` (its `useCallback`
dependency list), so the deps reduce to the debounced term and the page. -/
def fetchDeps (s : CrmState) : String × Int :=
  (s.debouncedSearchTerm, s.pagination.currentPage)

/-- The refetch request issued after a state transition: React reruns the
effect only when its dependency tuple changed, and the effect body then
fetches only when `shouldFetch` accepts. -/
def refetchRequest (before after : CrmState) : Option (Int × String) :=
  if fetchDeps before = fetchDeps after then none else effectFetch after

/-- Firing of the 500ms debounce timer:
`setDebouncedSearchTerm(searchTerm);
setPagination(prev => ({ ...prev, currentPage: 1 }))`. -/
def debounceFire (s : CrmState) : CrmState :=
  { s with
      debouncedSearchTerm := s.searchTerm
      pagination := { s.pagination with currentPage := 1 } }

/-- `goToPage`: update `currentPage` only when
`pageNumber >= 1 && pageNumber <= pagination.totalPages`. -/
def goToPage (s : CrmState) (pageNumber : Int) : CrmState :=
  if pageNumber ≥ 1 ∧ pageNumber ≤ s.pagination.totalPages then
    { s with pagination := { s.pagination with currentPage := pageNumber } }
  else s

/-- `fetchCustomerDetails(customerId)`: fetch `GET /api/customer/{id}` without
caching; on `!response.ok || !apiResponse.success` throw
`apiResponse.message || 'Failed to fetch details'`; the `catch` shows an error
toast prefixed `Error loading details: ` and yields `null`.  Returns the
customer (or `none`) together with the emitted toasts. -/
def fetchCustomerDetails (resp : Except String DetailResponse) :
    Option CrmCustomer × List Toast :=
  match resp with
  | Except.error msg =>
    (none, [Toast.error ("Error loading details: " ++ msg)])
  | Except.ok r =>
    if !r.ok || !r.success then
      (none,
       [Toast.error ("Error loading details: " ++
          jsOrDefault r.message "Failed to fetch details")])
    else
      (r.customer, [])

/-- Whether the detail fetch takes its `catch` branch (a thrown fetch/parse
error, a non-OK status, or `success:false`). -/
def detailFetchFails (resp : Except String DetailResponse) : Bool :=
  match resp with
  | Except.error _ => true
  | Except.ok r => !r.ok || !r.success

/-- Whether `selectedCustomer?._id === customer._id` holds: an absent
selection compares as `undefined === string`, which is `false`. -/
def selMatches (sel : Option CrmCustomer) (c : CrmCustomer) : Bool :=
  match sel with
  | some sc => sc._id == c._id
  | none => false

/-- The synchronous prefix of `handleViewCustomerDetails`: the toggle-close
early return, or (`panelKey` bump, open panel, clear `selectedCustomer` as a
loading placeholder).  The second component records whether a detail fetch was
started. -/
def handleViewCustomerDetailsStart (s : CrmState) (customer : CrmCustomer) :
    CrmState × Bool :=
  if s.isDetailPanelOpen && selMatches s.selectedCustomer customer then
    ({ s with isDetailPanelOpen := false }, false)
  else
    ({ s with
        panelKey := s.panelKey + 1
        isDetailPanelOpen := true
        selectedCustomer := none }, true)

/-- The whole `handleViewCustomerDetails(customer)` call viewed atomically:
after the synchronous prefix, `setSelectedCustomer(await
fetchCustomerDetails(customer._id))` when a fetch was started. -/
def handleViewCustomerDetails (s : CrmState) (customer : CrmCustomer)
    (resp : Except String DetailResponse) : CrmState × List Toast :=
  let st := handleViewCustomerDetailsStart s customer
  if st.2 then
    let d := fetchCustomerDetails resp
    ({ st.1 with selectedCustomer := d.1 }, d.2)
  else
    (st.1, [])

/-- The blocking `confirm(...)` message shown before a deactivation. -/
def deleteConfirmMessage (customerName : String) : String :=
  "Are you sure you want to deactivate " ++ customerName ++
    "? Their history will be saved."

/-- Everything `handleDeleteCustomer` produces: the resulting state, the
toasts, whether the DELETE request was issued at all, and the page passed to
`fetchCustomers` by `refreshData()` when a refresh was triggered. -/
structure DeleteOutcome where
  state : CrmState
  toasts : List Toast
  requestSent : Bool
  refetchPage : Option Int
deriving DecidableEq

/-- `handleDeleteCustomer(customerId, customerName)`: early return when the
confirmation is declined; otherwise DELETE, and on
`!response.ok || !result.success` throw
`result.message || 'Failed to deactivate customer.'` (caught as an error
toast); on success toast `Customer deactivated successfully.` and call
`refreshData()`, i.e. `fetchCustomers(pagination.currentPage)`. -/
def handleDeleteCustomer (s : CrmState) (confirmed : Bool)
    (resp : Except String DeleteResponse) : DeleteOutcome :=
  if !confirmed then
    { state := s, toasts := [], requestSent := false, refetchPage := none }
  else
    match resp with
    | Except.error msg =>
      { state := s, toasts := [Toast.error msg], requestSent := true
        refetchPage := none }
    | Except.ok r =>
      if !r.ok || !r.success then
        { state := s
          toasts := [Toast.error
            (jsOrDefault r.message "Failed to deactivate customer.")]
          requestSent := true
          refetchPage := none }
      else
        { state := s
          toasts := [Toast.success "Customer deactivated successfully."]
          requestSent := true
          refetchPage := some s.pagination.currentPage }

/-- JavaScript rendering of a possibly-absent barcode inside a template
literal: `undefined` prints as the string `undefined`. -/
def jsShowOptString (m : Option String) : String :=
  match m with
  | some s => s
  | none => "undefined"

/-- Whether `handleGrantMembership` takes its success path: the guard is
`if (!result.success || !result.customer) throw ...`, evaluated on the parsed
body only — `response.ok` is never consulted. -/
def grantSucceeds (resp : Except String MembershipResponse) : Bool :=
  match resp with
  | Except.error _ => false
  | Except.ok r => r.success && r.customer.isSome

/-- `handleGrantMembership(customerId, barcode)`: sets `isMembershipUpdating`,
POSTs the payload, and on a body with `success` and a `customer`: success
toast naming `result.customer.membershipBarcode`, `setSelectedCustomer` to the
fresh entity, patch the list entry whose `_id` matches, bump `panelKey`.
Otherwise throw `result.message || 'Failed to grant membership.'`, caught as
an error toast.  The `finally` clears `isMembershipUpdating`, so the flag ends
`false` on every path. -/
def handleGrantMembership (s : CrmState) (customerId : String)
    (resp : Except String MembershipResponse) : CrmState × List Toast :=
  match resp with
  | Except.error msg =>
    ({ s with isMembershipUpdating := false }, [Toast.error msg])
  | Except.ok r =>
    match r.success, r.customer with
    | true, some freshCustomerData =>
      ({ s with
          selectedCustomer := some freshCustomerData
          customers := s.customers.map
            (fun c => if c._id == customerId then freshCustomerData else c)
          panelKey := s.panelKey + 1
          isMembershipUpdating := false },
       [Toast.success ("Membership granted successfully with barcode: " ++
          jsShowOptString freshCustomerData.membershipBarcode)])
    | _, _ =>
      ({ s with isMembershipUpdating := false },
       [Toast.error (jsOrDefault r.message "Failed to grant membership.")])

/-- `handleOpenAddModal`. -/
def handleOpenAddModal (s : CrmState) : CrmState :=
  { s with editingCustomer := none, isAddEditModalOpen := true }

/-- `handleOpenEditModal(customer)`. -/
def handleOpenEditModal (s : CrmState) (customer : CrmCustomer) : CrmState :=
  { s with editingCustomer := some customer, isAddEditModalOpen := true }

/-- `handleCloseAddEditModal`. -/
def handleCloseAddEditModal (s : CrmState) : CrmState :=
  { s with isAddEditModalOpen := false, editingCustomer := none }

/-- One user- or network-driven operation of the controller, each carrying the
server response its handler consumes. -/
inductive CrmOp where
  | setSearch (t : String) : CrmOp
  | debounceTimerFire : CrmOp
  | listFetch (resp : Except String ListResponse) : CrmOp
  | viewDetails (c : CrmCustomer) (resp : Except String DetailResponse) : CrmOp
  | deleteCustomer (confirmed : Bool)
      (resp : Except String DeleteResponse) : CrmOp
  | grantMembership (customerId : String)
      (resp : Except String MembershipResponse) : CrmOp
  | goToPageOp (n : Int) : CrmOp
  | openAddModal : CrmOp
  | openEditModal (c : CrmCustomer) : CrmOp
  | closeAddEditModal : CrmOp
  | setDetailPanelOpen (b : Bool) : CrmOp

/-- The controller as a transition system: each exposed operation applied
atomically to the state, with its toasts. -/
def step (s : CrmState) (op : CrmOp) : CrmState × List Toast :=
  match op with
  | CrmOp.setSearch t => ({ s with searchTerm := t }, [])
  | CrmOp.debounceTimerFire => (debounceFire s, [])
  | CrmOp.listFetch resp => (fetchCustomers s resp, [])
  | CrmOp.viewDetails c resp => handleViewCustomerDetails s c resp
  | CrmOp.deleteCustomer confirmed resp =>
    let o := handleDeleteCustomer s confirmed resp
    (o.state, o.toasts)
  | CrmOp.grantMembership customerId resp =>
    handleGrantMembership s customerId resp
  | CrmOp.goToPageOp n => (goToPage s n, [])
  | CrmOp.openAddModal => (handleOpenAddModal s, [])
  | CrmOp.openEditModal c => (handleOpenEditModal s c, [])
  | CrmOp.closeAddEditModal => (handleCloseAddEditModal s, [])
  | CrmOp.setDetailPanelOpen b => ({ s with isDetailPanelOpen := b }, [])

/-- The two force-remount events named by the spec: opening the detail panel
for a customer not currently shown (the non-toggle branch of
`handleViewCustomerDetails`), and a successful membership grant. -/
def isRemountEvent (s : CrmState) (op : CrmOp) : Bool :=
  match op with
  | CrmOp.viewDetails c _ =>
    !(s.isDetailPanelOpen && selMatches s.selectedCustomer c)
  | CrmOp.grantMembership _ resp => grantSucceeds resp
  | _ => false

/-! Concrete sample data used by counterexamples and witnesses. -/

/-- Sample customer, no membership. -/
def custAlice : CrmCustomer :=
  { _id := "a", name := "Alice", isMembership := false
    membershipBarcode := none }

/-- The same customer after a membership grant. -/
def custAliceMember : CrmCustomer :=
  { _id := "a", name := "Alice", isMembership := true
    membershipBarcode := some "BC123" }

/-- A second, unrelated customer. -/
def custBob : CrmCustomer :=
  { _id := "b", name := "Bob", isMembership := false
    membershipBarcode := none }

/-- A settled state holding a two-customer page. -/
def sampleState : CrmState :=
  { initialState with
      customers := [custAlice, custBob]
      pagination := { currentPage := 1, totalPages := 3, totalCustomers := 21 }
      isLoading := false }

/-- A settled state currently on page 2 of 3. -/
def pageTwoState : CrmState :=
  { sampleState with
      pagination := { currentPage := 2, totalPages := 3, totalCustomers := 21 } }

/-! Claim theorems. -/

/-- Claim C2: for every list fetch, a non-OK status or `success:false` body
leaves the held customers and pagination unchanged and sets the page-level
error to the server message or the default `Failed to fetch customers`; a
successful fetch replaces customers and pagination wholesale and clears the
error; `isLoading` is `true` for the whole request and `false` after
completion in either case. -/
theorem claim_C2_fetch_customers (s : CrmState)
    (resp : Except String ListResponse) (r : ListResponse) :
    (fetchCustomersStart s).isLoading = true ∧
    (fetchCustomers s resp).isLoading = false ∧
    ((r.ok = false ∨ r.success = false) →
      (fetchCustomers s (Except.ok r)).customers = s.customers ∧
      (fetchCustomers s (Except.ok r)).pagination = s.pagination ∧
      (fetchCustomers s (Except.ok r)).pageError =
        some (jsOrDefault r.message "Failed to fetch customers")) ∧
    ((r.ok = true ∧ r.success = true) →
      (fetchCustomers s (Except.ok r)).customers = r.customers ∧
      (fetchCustomers s (Except.ok r)).pagination = r.pagination ∧
      (fetchCustomers s (Except.ok r)).pageError = none) := by
  refine ⟨rfl, ?_, ?_, ?_⟩
  · cases resp with
    | error msg => rfl
    | ok r' =>
      simp only [fetchCustomers, fetchCustomersResolve]
      by_cases h : (!r'.ok || !r'.success) = true
      · simp [h]
      · simp [h]
  · intro h
    have hb : (!r.ok || !r.success) = true := by
      rcases h with h | h <;> simp [h]
    simp [fetchCustomers, fetchCustomersResolve, fetchCustomersStart, hb]
  · rintro ⟨h1, h2⟩
    simp [fetchCustomers, fetchCustomersResolve, fetchCustomersStart, h1, h2]

/-- Witness for C2 at concrete inputs: a failed fetch keeps the sample list, a
successful one replaces it. -/
theorem claim_C2_witness :
    (fetchCustomers sampleState (Except.ok
      { ok := false, success := true, customers := [custBob]
        pagination := { currentPage := 1, totalPages := 1, totalCustomers := 1 }
        message := none })).customers = sampleState.customers ∧
    (fetchCustomers sampleState (Except.ok
      { ok := true, success := true, customers := [custBob]
        pagination := { currentPage := 1, totalPages := 1, totalCustomers := 1 }
        message := none })).customers = [custBob] := by
  constructor
  · exact (claim_C2_fetch_customers sampleState (Except.ok
      { ok := false, success := true, customers := [custBob]
        pagination := { currentPage := 1, totalPages := 1, totalCustomers := 1 }
        message := none })
      { ok := false, success := true, customers := [custBob]
        pagination := { currentPage := 1, totalPages := 1, totalCustomers := 1 }
        message := none }).2.2.1 (Or.inl rfl) |>.1
  · exact (claim_C2_fetch_customers sampleState (Except.ok
      { ok := true, success := true, customers := [custBob]
        pagination := { currentPage := 1, totalPages := 1, totalCustomers := 1 }
        message := none })
      { ok := true, success := true, customers := [custBob]
        pagination := { currentPage := 1, totalPages := 1, totalCustomers := 1 }
        message := none }).2.2.2 ⟨rfl, rfl⟩ |>.1

/-- Counterexample to claim C3 as stated: in `pageTwoState` the target page 2
is within range (`1 ≤ 2 ≤ totalPages = 3`), yet `goToPage 2` equals the old
state (the page was already 2), so the effect dependencies do not change and
no refetch is issued — the claim demands exactly one. -/
theorem claim_C3_counterexample :
    1 ≤ (2 : Int) ∧ (2 : Int) ≤ pageTwoState.pagination.totalPages ∧
    goToPage pageTwoState 2 = pageTwoState ∧
    refetchRequest pageTwoState (goToPage pageTwoState 2) = none := by
  refine ⟨by decide, by decide, ?_, ?_⟩ <;> rfl

/-- Claim C3 (amended): `goToPage n` is a no-op when `n < 1` or
`n > totalPages`; otherwise it sets `currentPage` to `n` leaving `totalPages`,
`totalCustomers` and all non-pagination state unchanged, and this triggers
exactly one refetch for that page/search combination when `n` differs from the
previous current page and the fetch-trigger condition holds, and no refetch
otherwise. -/
theorem claim_C3_go_to_page (s : CrmState) (n : Int) :
    ((n < 1 ∨ n > s.pagination.totalPages) → goToPage s n = s) ∧
    ((1 ≤ n ∧ n ≤ s.pagination.totalPages) →
      (goToPage s n).pagination.currentPage = n ∧
      (goToPage s n).pagination.totalPages = s.pagination.totalPages ∧
      (goToPage s n).pagination.totalCustomers =
        s.pagination.totalCustomers ∧
      (goToPage s n).customers = s.customers ∧
      (goToPage s n).searchTerm = s.searchTerm ∧
      (goToPage s n).debouncedSearchTerm = s.debouncedSearchTerm ∧
      refetchRequest s (goToPage s n) =
        (if n ≠ s.pagination.currentPage ∧ shouldFetch s = true then
          some (n, s.debouncedSearchTerm)
        else none)) := by
  constructor
  · intro h
    have hn : ¬(n ≥ 1 ∧ n ≤ s.pagination.totalPages) := by omega
    simp [goToPage, hn]
  · intro h
    have hn : n ≥ 1 ∧ n ≤ s.pagination.totalPages := ⟨h.1, h.2⟩
    have hgo : goToPage s n =
        { s with pagination := { s.pagination with currentPage := n } } := by
      simp [goToPage, hn]
    rw [hgo]
    refine ⟨rfl, rfl, rfl, rfl, rfl, rfl, ?_⟩
    by_cases hne : n = s.pagination.currentPage
    · subst hne
      simp [refetchRequest, fetchDeps]
    · have hdep : ¬(fetchDeps s = fetchDeps
          { s with pagination := { s.pagination with currentPage := n } }) := by
        simp [fetchDeps]
        intro _
        omega
      by_cases hsf : shouldFetch s = true
      · have hsf2 : shouldFetch
            { s with pagination := { s.pagination with currentPage := n } } =
            true := hsf
        simp [refetchRequest, hdep, effectFetch, hsf2, hne, hsf]
      · have hsf2 : shouldFetch
            { s with pagination := { s.pagination with currentPage := n } } =
            false := by
          simpa using hsf
        simp [refetchRequest, hdep, effectFetch, hsf2, hne, hsf]

/-- Witness for C3 (amended) at concrete inputs: `goToPage 5` is a no-op on
the three-page sample state, and `goToPage 3` from page 1 with an empty search
issues exactly the refetch for page 3. -/
theorem claim_C3_witness :
    goToPage sampleState 5 = sampleState ∧
    (goToPage sampleState 3).pagination.currentPage = 3 ∧
    refetchRequest sampleState (goToPage sampleState 3) = some (3, "") := by
  refine ⟨?_, ?_, ?_⟩
  · exact (claim_C3_go_to_page sampleState 5).1 (Or.inr (by decide))
  · exact ((claim_C3_go_to_page sampleState 3).2 ⟨by decide, by decide⟩).1
  · have h := ((claim_C3_go_to_page sampleState 3).2
      ⟨by decide, by decide⟩).2.2.2.2.2.2
    rw [h]
    simp [sampleState, initialState, shouldFetch, jsTruthyString]

/-- Claim C6: when the 500ms debounce timer fires, `debouncedSearchTerm` is
set to the live `searchTerm` and `currentPage` is reset to 1; consequently
every controller operation that changes the committed (debounced) search term
leaves the current page at 1. -/
theorem claim_C6_debounce_resets_page (s : CrmState) (op : CrmOp) :
    (debounceFire s).debouncedSearchTerm = s.searchTerm ∧
    (debounceFire s).pagination.currentPage = 1 ∧
    ((step s op).1.debouncedSearchTerm ≠ s.debouncedSearchTerm →
      (step s op).1.pagination.currentPage = 1) := by
  refine ⟨rfl, rfl, ?_⟩
  intro hch
  cases op with
  | setSearch t => exact absurd rfl hch
  | debounceTimerFire => rfl
  | listFetch resp =>
    exfalso
    apply hch
    cases resp with
    | error msg => rfl
    | ok r =>
      simp only [step, fetchCustomers, fetchCustomersResolve]
      by_cases hb : (!r.ok || !r.success) = true
      · simp [hb, fetchCustomersStart]
      · simp [hb, fetchCustomersStart]
  | viewDetails c resp =>
    exfalso
    apply hch
    simp only [step, handleViewCustomerDetails, handleViewCustomerDetailsStart]
    by_cases hb : (s.isDetailPanelOpen && selMatches s.selectedCustomer c)
        = true
    · simp [hb]
    · simp [hb]
  | deleteCustomer confirmed resp =>
    exfalso
    apply hch
    simp only [step, handleDeleteCustomer]
    by_cases hb : (!confirmed) = true
    · simp [hb]
    · cases resp with
      | error msg => simp [hb]
      | ok r =>
        by_cases hr : (!r.ok || !r.success) = true
        · simp [hb, hr]
        · simp [hb, hr]
  | grantMembership customerId resp =>
    exfalso
    apply hch
    cases resp with
    | error msg => rfl
    | ok r =>
      simp only [step, handleGrantMembership]
      rcases hs : r.success with _ | _ <;> rcases hc : r.customer with _ | fc
        <;> simp
  | goToPageOp n =>
    exfalso
    apply hch
    simp only [step, goToPage]
    by_cases hb : n ≥ 1 ∧ n ≤ s.pagination.totalPages
    · simp [hb]
    · simp [hb]
  | openAddModal => exact absurd rfl hch
  | openEditModal c => exact absurd rfl hch
  | closeAddEditModal => exact absurd rfl hch
  | setDetailPanelOpen b => exact absurd rfl hch

/-- Witness for C6 at a concrete input: firing the debounce timer while the
live term is `bob` and page 3 is shown commits `bob` and resets the page
to 1. -/
theorem claim_C6_witness :
    (step { sampleState with
        searchTerm := "bob"
        pagination :=
          { currentPage := 3, totalPages := 3, totalCustomers := 21 } }
      CrmOp.debounceTimerFire).1.pagination.currentPage = 1 :=
  (claim_C6_debounce_resets_page
    { sampleState with
        searchTerm := "bob"
        pagination :=
          { currentPage := 3, totalPages := 3, totalCustomers := 21 } }
    CrmOp.debounceTimerFire).2.2 (by decide)

/-- Claim C7: when the refetch effect runs, a list fetch is initiated exactly
when the trigger condition holds — the debounced term is non-empty or the live
term is empty; in particular the very first render (both terms empty) issues a
fetch, for page 1 with an empty search. -/
theorem claim_C7_fetch_trigger (s : CrmState) :
    (shouldFetch s = true ↔
      (s.debouncedSearchTerm ≠ "" ∨ s.searchTerm = "")) ∧
    ((effectFetch s).isSome = true ↔
      (s.debouncedSearchTerm ≠ "" ∨ s.searchTerm = "")) ∧
    shouldFetch initialState = true ∧
    effectFetch initialState = some (1, "") := by
  have hiff : shouldFetch s = true ↔
      (s.debouncedSearchTerm ≠ "" ∨ s.searchTerm = "") := by
    simp [shouldFetch, jsTruthyString]
  refine ⟨hiff, ?_, by decide, by decide⟩
  rw [← hiff]
  unfold effectFetch
  by_cases hb : shouldFetch s = true
  · simp [hb]
  · simp [hb]

/-- Claim C5: a declined confirmation issues no request and changes nothing; a
failed DELETE (thrown error, non-OK status, or `success:false`) leaves the
state — in particular the customer list and pagination — unchanged and emits
only an error toast; a successful DELETE emits a success toast and triggers a
re-fetch of the current page. -/
theorem claim_C5_delete_customer (s : CrmState)
    (resp : Except String DeleteResponse) (r : DeleteResponse) :
    (handleDeleteCustomer s false resp =
      { state := s, toasts := [], requestSent := false, refetchPage := none }) ∧
    (((∃ m, resp = Except.error m) ∨
        (∃ rf, resp = Except.ok rf ∧ (rf.ok = false ∨ rf.success = false))) →
      (handleDeleteCustomer s true resp).state = s ∧
      (∃ m, (handleDeleteCustomer s true resp).toasts = [Toast.error m]) ∧
      (handleDeleteCustomer s true resp).refetchPage = none) ∧
    ((r.ok = true ∧ r.success = true) →
      (handleDeleteCustomer s true (Except.ok r)).state = s ∧
      (handleDeleteCustomer s true (Except.ok r)).toasts =
        [Toast.success "Customer deactivated successfully."] ∧
      (handleDeleteCustomer s true (Except.ok r)).refetchPage =
        some s.pagination.currentPage) := by
  refine ⟨rfl, ?_, ?_⟩
  · rintro (⟨m, rfl⟩ | ⟨rf, rfl, hfail⟩)
    · exact ⟨rfl, ⟨m, rfl⟩, rfl⟩
    · have hb : (!rf.ok || !rf.success) = true := by
        rcases hfail with h | h <;> simp [h]
      refine ⟨?_, ⟨jsOrDefault rf.message "Failed to deactivate customer.", ?_⟩,
        ?_⟩ <;> simp [handleDeleteCustomer, hb]
  · rintro ⟨h1, h2⟩
    refine ⟨?_, ?_, ?_⟩ <;> simp [handleDeleteCustomer, h1, h2]

/-- Witness for C5 at concrete inputs: a declined confirmation is inert, a
non-OK DELETE keeps the sample state with no refetch, and a successful one
schedules a re-fetch of page 1. -/
theorem claim_C5_witness :
    handleDeleteCustomer sampleState false
        (Except.ok { ok := true, success := true, message := none }) =
      { state := sampleState, toasts := [], requestSent := false
        refetchPage := none } ∧
    (handleDeleteCustomer sampleState true
        (Except.ok { ok := false, success := true, message := none })).state =
      sampleState ∧
    DeleteOutcome.refetchPage (handleDeleteCustomer sampleState true
        (Except.ok { ok := false, success := true, message := none })) =
      none ∧
    DeleteOutcome.refetchPage (handleDeleteCustomer sampleState true
        (Except.ok { ok := true, success := true, message := none })) =
      some 1 := by
  refine ⟨?_, ?_, ?_, ?_⟩
  · exact (claim_C5_delete_customer sampleState
      (Except.ok { ok := true, success := true, message := none })
      { ok := true, success := true, message := none }).1
  · exact ((claim_C5_delete_customer sampleState
      (Except.ok { ok := false, success := true, message := none })
      { ok := false, success := true, message := none }).2.1
      (Or.inr ⟨_, rfl, Or.inl rfl⟩)).1
  · exact ((claim_C5_delete_customer sampleState
      (Except.ok { ok := false, success := true, message := none })
      { ok := false, success := true, message := none }).2.1
      (Or.inr ⟨_, rfl, Or.inl rfl⟩)).2.2
  · exact ((claim_C5_delete_customer sampleState
      (Except.ok { ok := true, success := true, message := none })
      { ok := true, success := true, message := none }).2.2
      ⟨rfl, rfl⟩).2.2

/-- A detail response carrying Alice. -/
def detailOkAlice : DetailResponse :=
  { ok := true, success := true, customer := some custAlice, message := none }

/-- A detail response carrying Bob. -/
def detailOkBob : DetailResponse :=
  { ok := true, success := true, customer := some custBob, message := none }

/-- The sample state with the detail panel open on Alice. -/
def openAliceState : CrmState :=
  { sampleState with
      isDetailPanelOpen := true, selectedCustomer := some custAlice }

/-- The sample state with the panel open but no selection yet (a detail fetch
still pending or failed), at panel key 4. -/
def pendingPanelState : CrmState :=
  { sampleState with
      isDetailPanelOpen := true, selectedCustomer := none, panelKey := 4 }

/-- Claim C4: calling `viewDetails c` while the panel is open on the same
customer (compared by `_id`) closes the panel and changes nothing else;
otherwise the panel key is incremented, the panel opened, `selectedCustomer`
first cleared and then set to the detail-fetch result, which is absent — after
an error toast — when the fetch fails. -/
theorem claim_C4_view_details (s : CrmState) (c : CrmCustomer)
    (resp : Except String DetailResponse) :
    ((s.isDetailPanelOpen = true ∧ selMatches s.selectedCustomer c = true) →
      handleViewCustomerDetails s c resp =
        ({ s with isDetailPanelOpen := false }, [])) ∧
    (¬(s.isDetailPanelOpen = true ∧ selMatches s.selectedCustomer c = true) →
      (handleViewCustomerDetailsStart s c).1.selectedCustomer = none ∧
      (handleViewCustomerDetails s c resp).1.panelKey = s.panelKey + 1 ∧
      (handleViewCustomerDetails s c resp).1.isDetailPanelOpen = true ∧
      (handleViewCustomerDetails s c resp).1.selectedCustomer =
        (fetchCustomerDetails resp).1 ∧
      (detailFetchFails resp = true →
        (handleViewCustomerDetails s c resp).1.selectedCustomer = none ∧
        ∃ m, (handleViewCustomerDetails s c resp).2 = [Toast.error m])) := by
  constructor
  · rintro ⟨h1, h2⟩
    simp [handleViewCustomerDetails, handleViewCustomerDetailsStart, h1, h2]
  · intro h
    have hb : (s.isDetailPanelOpen && selMatches s.selectedCustomer c) =
        false := by
      cases hx : s.isDetailPanelOpen with
      | false => simp [hx]
      | true =>
        cases hy : selMatches s.selectedCustomer c with
        | false => simp [hx, hy]
        | true => exact absurd ⟨hx, hy⟩ h
    refine ⟨?_, ?_, ?_, ?_, ?_⟩
    · simp [handleViewCustomerDetailsStart, hb]
    · simp [handleViewCustomerDetails, handleViewCustomerDetailsStart, hb]
    · simp [handleViewCustomerDetails, handleViewCustomerDetailsStart, hb]
    · simp [handleViewCustomerDetails, handleViewCustomerDetailsStart, hb]
    · intro hfail
      constructor
      · have hres : (fetchCustomerDetails resp).1 = none := by
          cases resp with
          | error msg => rfl
          | ok r =>
            have hr : (!r.ok || !r.success) = true := hfail
            simp [fetchCustomerDetails, hr]
        simp [handleViewCustomerDetails, handleViewCustomerDetailsStart, hb,
          hres]
      · cases resp with
        | error msg =>
          exact ⟨"Error loading details: " ++ msg,
            by simp [handleViewCustomerDetails,
              handleViewCustomerDetailsStart, hb, fetchCustomerDetails]⟩
        | ok r =>
          have hr : (!r.ok || !r.success) = true := hfail
          exact ⟨"Error loading details: " ++
              jsOrDefault r.message "Failed to fetch details",
            by simp [handleViewCustomerDetails,
              handleViewCustomerDetailsStart, hb, fetchCustomerDetails, hr]⟩

/-- Witness for C4 at concrete inputs: with the panel open on Alice, viewing
Alice again closes it; viewing Bob instead bumps the key and loads Bob's
detail record. -/
theorem claim_C4_witness :
    handleViewCustomerDetails openAliceState custAlice
        (Except.ok detailOkAlice) =
      ({ openAliceState with isDetailPanelOpen := false }, []) ∧
    (handleViewCustomerDetails openAliceState custBob
        (Except.ok detailOkBob)).1.selectedCustomer = some custBob := by
  constructor
  · exact (claim_C4_view_details openAliceState custAlice
      (Except.ok detailOkAlice)).1 ⟨rfl, by decide⟩
  · have h := ((claim_C4_view_details openAliceState custBob
      (Except.ok detailOkBob)).2 (by decide)).2.2.2.1
    rw [h]
    rfl

/-- Claim C10: calling `viewDetails c` while the panel is open but no customer
is selected (a pending or failed prior detail fetch) never toggles the panel
closed — even for the customer that opened it — because the optional-chained
comparison against an absent selection is false; instead the panel key is
incremented and a fresh detail fetch is started. -/
theorem claim_C10_view_details_absent_selection (s : CrmState)
    (c : CrmCustomer) (resp : Except String DetailResponse)
    (hopen : s.isDetailPanelOpen = true) (hnone : s.selectedCustomer = none) :
    s.isDetailPanelOpen = true ∧
    selMatches s.selectedCustomer c = false ∧
    (handleViewCustomerDetails s c resp).1.isDetailPanelOpen = true ∧
    (handleViewCustomerDetails s c resp).1.panelKey = s.panelKey + 1 ∧
    (handleViewCustomerDetailsStart s c).2 = true := by
  have hm : selMatches s.selectedCustomer c = false := by
    rw [hnone]; rfl
  have hb : (s.isDetailPanelOpen && selMatches s.selectedCustomer c) =
      false := by simp [hm]
  refine ⟨hopen, hm, ?_, ?_, ?_⟩
  · simp [handleViewCustomerDetails, handleViewCustomerDetailsStart, hb]
  · simp [handleViewCustomerDetails, handleViewCustomerDetailsStart, hb]
  · simp [handleViewCustomerDetailsStart, hb]

/-- Witness for C10 at a concrete input: the panel is open with no selection,
and viewing Alice — the customer whose click opened it — keeps the panel open,
bumps the key from 4 to 5, and starts a fetch. -/
theorem claim_C10_witness :
    (handleViewCustomerDetails pendingPanelState custAlice
        (Except.error "network down")).1.isDetailPanelOpen = true ∧
    (handleViewCustomerDetails pendingPanelState custAlice
        (Except.error "network down")).1.panelKey = 5 := by
  have h := claim_C10_view_details_absent_selection pendingPanelState
    custAlice (Except.error "network down") rfl rfl
  exact ⟨h.2.2.1, h.2.2.2.1⟩

/-- A membership-grant response carrying the fresh Alice entity. -/
def grantOkAlice : MembershipResponse :=
  { ok := true, success := true, customer := some custAliceMember
    message := none }

/-- Claim C1: on a successful `grantMembership` (body has `success:true` and a
customer entity), `selectedCustomer` becomes the returned entity, each list
entry whose `_id` equals the granted id is replaced by that entity while every
other row is unchanged, `panelKey` is incremented, and a success toast names
the returned barcode. -/
theorem claim_C1_grant_membership (s : CrmState) (customerId : String)
    (r : MembershipResponse) (fresh : CrmCustomer)
    (hsucc : r.success = true) (hcust : r.customer = some fresh) :
    (handleGrantMembership s customerId (Except.ok r)).1.selectedCustomer =
      some fresh ∧
    (handleGrantMembership s customerId (Except.ok r)).1.customers =
      s.customers.map (fun c => if c._id == customerId then fresh else c) ∧
    (handleGrantMembership s customerId
        (Except.ok r)).1.customers.length = s.customers.length ∧
    (∀ i (hi : i < s.customers.length)
        (hi₂ : i < (handleGrantMembership s customerId
          (Except.ok r)).1.customers.length),
      (handleGrantMembership s customerId (Except.ok r)).1.customers.get
          ⟨i, hi₂⟩ =
        if (s.customers.get ⟨i, hi⟩)._id == customerId then fresh
        else s.customers.get ⟨i, hi⟩) ∧
    (handleGrantMembership s customerId (Except.ok r)).1.panelKey =
      s.panelKey + 1 ∧
    (handleGrantMembership s customerId (Except.ok r)).2 =
      [Toast.success ("Membership granted successfully with barcode: " ++
        jsShowOptString fresh.membershipBarcode)] ∧
    (∀ bc, fresh.membershipBarcode = some bc →
      (handleGrantMembership s customerId (Except.ok r)).2 =
        [Toast.success
          ("Membership granted successfully with barcode: " ++ bc)]) := by
  obtain ⟨rok, rsucc, rcust, rmsg⟩ := r
  dsimp at hsucc hcust
  subst hsucc
  subst hcust
  refine ⟨rfl, rfl, by simp [handleGrantMembership], ?_, rfl, rfl, ?_⟩
  · intro i hi hi₂
    simp [handleGrantMembership, List.get_eq_getElem]
  · intro bc hbc
    simp [handleGrantMembership, jsShowOptString, hbc]

/-- Witness for C1 at concrete inputs: granting Alice membership on the
two-row sample page selects the fresh entity, rewrites only row 0, keeps Bob
at row 1, bumps the key, and toasts the barcode `BC123`. -/
theorem claim_C1_witness :
    (handleGrantMembership sampleState "a"
        (Except.ok grantOkAlice)).1.selectedCustomer = some custAliceMember ∧
    (handleGrantMembership sampleState "a"
        (Except.ok grantOkAlice)).1.customers = [custAliceMember, custBob] ∧
    (handleGrantMembership sampleState "a" (Except.ok grantOkAlice)).2 =
      [Toast.success
        ("Membership granted successfully with barcode: " ++ "BC123")] := by
  have h := claim_C1_grant_membership sampleState "a" grantOkAlice
    custAliceMember rfl rfl
  refine ⟨h.1, ?_, h.2.2.2.2.2.2 "BC123" rfl⟩
  rw [h.2.1]
  rfl

/-- `handleDeleteCustomer` never mutates controller state locally. -/
theorem handleDeleteCustomer_state_eq (s : CrmState) (confirmed : Bool)
    (resp : Except String DeleteResponse) :
    (handleDeleteCustomer s confirmed resp).state = s := by
  unfold handleDeleteCustomer
  by_cases hc : (!confirmed) = true
  · simp [hc]
  · cases resp with
    | error m => simp [hc]
    | ok r =>
      by_cases hr : (!r.ok || !r.success) = true <;> simp [hc, hr]

/-- Claim C8: `panelKey` is monotonically non-decreasing under every
controller operation, and is incremented — by exactly 1 — precisely on the two
force-remount events: opening the detail panel for a customer not currently
shown, and a successful membership grant. -/
theorem claim_C8_panel_key (s : CrmState) (op : CrmOp) :
    s.panelKey ≤ (step s op).1.panelKey ∧
    (step s op).1.panelKey =
      (if isRemountEvent s op = true then s.panelKey + 1 else s.panelKey) := by
  have hkey : (step s op).1.panelKey =
      (if isRemountEvent s op = true then s.panelKey + 1 else s.panelKey) := by
    cases op with
    | setSearch t => simp [step, isRemountEvent]
    | debounceTimerFire => simp [step, isRemountEvent, debounceFire]
    | listFetch resp =>
      cases resp with
      | error m => simp [step, isRemountEvent, fetchCustomers,
          fetchCustomersResolve, fetchCustomersStart]
      | ok r =>
        by_cases hb : (!r.ok || !r.success) = true <;>
          simp [step, isRemountEvent, fetchCustomers, fetchCustomersResolve,
            fetchCustomersStart, hb]
    | viewDetails c resp =>
      by_cases hb : (s.isDetailPanelOpen && selMatches s.selectedCustomer c)
          = true <;>
        simp [step, isRemountEvent, handleViewCustomerDetails,
          handleViewCustomerDetailsStart, hb]
    | deleteCustomer confirmed resp =>
      have h := handleDeleteCustomer_state_eq s confirmed resp
      simp [step, isRemountEvent, h]
    | grantMembership customerId resp =>
      cases resp with
      | error m => simp [step, isRemountEvent, handleGrantMembership,
          grantSucceeds]
      | ok r =>
        obtain ⟨rok, rsucc, rcust, rmsg⟩ := r
        cases rsucc <;> cases rcust <;>
          simp [step, isRemountEvent, handleGrantMembership, grantSucceeds]
    | goToPageOp n =>
      by_cases hb : n ≥ 1 ∧ n ≤ s.pagination.totalPages <;>
        simp [step, isRemountEvent, goToPage, hb]
    | openAddModal => simp [step, isRemountEvent, handleOpenAddModal]
    | openEditModal c => simp [step, isRemountEvent, handleOpenEditModal]
    | closeAddEditModal => simp [step, isRemountEvent, handleCloseAddEditModal]
    | setDetailPanelOpen b => simp [step, isRemountEvent]
  refine ⟨?_, hkey⟩
  rw [hkey]
  by_cases hr : isRemountEvent s op = true <;> simp [hr]

/-- Claim C9: `handleGrantMembership` decides success solely from the parsed
body — its outcome is independent of the HTTP `ok` flag, it succeeds exactly
when the body has `success:true` and a customer, and a non-OK response whose
body carries both is still processed as a success; by contrast the list fetch,
detail fetch and deactivate all fail on a non-OK status even when the body
says `success:true`. -/
theorem claim_C9_grant_ignores_http_status (s : CrmState)
    (customerId : String) (r : MembershipResponse) (rl : ListResponse)
    (rd : DetailResponse) (rdel : DeleteResponse) :
    handleGrantMembership s customerId (Except.ok
        { r with ok := true }) =
      handleGrantMembership s customerId (Except.ok { r with ok := false }) ∧
    (grantSucceeds (Except.ok r) = true ↔
      (r.success = true ∧ r.customer.isSome = true)) ∧
    ((r.ok = false ∧ r.success = true ∧ r.customer.isSome = true) →
      ∃ m, (handleGrantMembership s customerId (Except.ok r)).2 =
        [Toast.success m]) ∧
    ((rl.ok = false ∧ rl.success = true) →
      (fetchCustomers s (Except.ok rl)).customers = s.customers ∧
      (fetchCustomers s (Except.ok rl)).pageError.isSome = true) ∧
    ((rd.ok = false ∧ rd.success = true) →
      (fetchCustomerDetails (Except.ok rd)).1 = none ∧
      ∃ m, (fetchCustomerDetails (Except.ok rd)).2 = [Toast.error m]) ∧
    ((rdel.ok = false ∧ rdel.success = true) →
      (handleDeleteCustomer s true (Except.ok rdel)).refetchPage = none ∧
      ∃ m, (handleDeleteCustomer s true (Except.ok rdel)).toasts =
        [Toast.error m]) := by
  refine ⟨?_, ?_, ?_, ?_, ?_, ?_⟩
  · obtain ⟨rok, rsucc, rcust, rmsg⟩ := r
    cases rsucc <;> cases rcust <;> rfl
  · obtain ⟨rok, rsucc, rcust, rmsg⟩ := r
    cases rsucc <;> cases rcust <;> simp [grantSucceeds]
  · rintro ⟨hok, hsucc, hcust⟩
    obtain ⟨rok, rsucc, rcust, rmsg⟩ := r
    dsimp at hsucc hcust
    subst hsucc
    obtain ⟨fresh, hfresh⟩ := Option.isSome_iff_exists.mp hcust
    subst hfresh
    exact ⟨"Membership granted successfully with barcode: " ++
      jsShowOptString fresh.membershipBarcode, rfl⟩
  · rintro ⟨hok, hsucc⟩
    have hb : (!rl.ok || !rl.success) = true := by simp [hok]
    constructor <;>
      simp [fetchCustomers, fetchCustomersResolve, fetchCustomersStart, hb]
  · rintro ⟨hok, hsucc⟩
    have hb : (!rd.ok || !rd.success) = true := by simp [hok]
    exact ⟨by simp [fetchCustomerDetails, hb],
      ⟨"Error loading details: " ++
          jsOrDefault rd.message "Failed to fetch details",
        by simp [fetchCustomerDetails, hb]⟩⟩
  · rintro ⟨hok, hsucc⟩
    have hb : (!rdel.ok || !rdel.success) = true := by simp [hok]
    exact ⟨by simp [handleDeleteCustomer, hb],
      ⟨jsOrDefault rdel.message "Failed to deactivate customer.",
        by simp [handleDeleteCustomer, hb]⟩⟩

/-- A non-OK membership-grant response whose body nevertheless carries
`success:true` and a customer. -/
def grantNotOkBody : MembershipResponse :=
  { ok := false, success := true, customer := some custAliceMember
    message := none }

/-- A non-OK list response whose body carries `success:true`. -/
def listNotOkBody : ListResponse :=
  { ok := false, success := true, customers := [custBob]
    pagination := { currentPage := 1, totalPages := 1, totalCustomers := 1 }
    message := none }

/-- A non-OK detail response whose body carries `success:true`. -/
def detailNotOkBody : DetailResponse :=
  { ok := false, success := true, customer := some custAlice, message := none }

/-- A non-OK DELETE response whose body carries `success:true`. -/
def deleteNotOkBody : DeleteResponse :=
  { ok := false, success := true, message := none }

/-- Witness for C9 at concrete inputs: with `ok:false` but a
`success:true`-plus-customer body, the grant still emits a success toast,
while the list fetch keeps its old rows, the detail fetch yields nothing, and
the deactivation schedules no refresh. -/
theorem claim_C9_witness :
    (∃ m, (handleGrantMembership sampleState "a"
      (Except.ok grantNotOkBody)).2 = [Toast.success m]) ∧
    (fetchCustomers sampleState (Except.ok listNotOkBody)).customers =
      sampleState.customers ∧
    (fetchCustomerDetails (Except.ok detailNotOkBody)).1 = none ∧
    DeleteOutcome.refetchPage
      (handleDeleteCustomer sampleState true (Except.ok deleteNotOkBody)) =
      none := by
  have h := claim_C9_grant_ignores_http_status sampleState "a" grantNotOkBody
    listNotOkBody detailNotOkBody deleteNotOkBody
  exact ⟨h.2.2.1 ⟨rfl, rfl, rfl⟩,
    (h.2.2.2.1 ⟨rfl, rfl⟩).1,
    (h.2.2.2.2.1 ⟨rfl, rfl⟩).1,
    (h.2.2.2.2.2 ⟨rfl, rfl⟩).1⟩
